import Mathlib

/-!
# Serialization and construction of `tx_source_entry` / `tx_destination_entry`

A shallow embedding of `src/cryptonote_core/cryptonote_tx_utils.h`: the two
records, the constructors and `address` of `tx_destination_entry`,
`push_output`, the `BEGIN_SERIALIZE_OBJECT` serializers and the
`boost::serialization::serialize` overloads with their class version.

Unsigned 64-bit members are natural numbers (no arithmetic is done on them in
this header).  A serializer that fails (returns `false`, or throws inside the
archive) is `none`.
-/

/-! ## Types declared outside the header -/

namespace crypto

/-- Modelled from the spec: `crypto::public_key` is declared outside this header;
it is a fixed block of bytes whose contents the header never inspects. -/
structure public_key where
  data : List Nat
deriving DecidableEq, Repr

/-- Modelled from the spec: `crypto::hash` (32 bytes), declared outside this header. -/
structure hash where
  data : List Nat
deriving DecidableEq, Repr

/-- Modelled from the spec: `crypto::hash8` (8 bytes), declared outside this header. -/
structure hash8 where
  data : List Nat
deriving DecidableEq, Repr

/-- The `reinterpret_cast<const crypto::hash8 &>` of a `crypto::hash`: the object
starting at the same address, i.e. its first 8 bytes. -/
def hash.as_hash8 (h : hash) : hash8 := ⟨h.data.take 8⟩

end crypto

namespace rct

/-- Modelled from the spec: `rct::key` (32 bytes), declared in `ringct/rctTypes.h`. -/
structure key where
  bytes : List Nat
deriving DecidableEq, Repr

/-- Modelled from the spec: `rct::ctkey`, a destination key with an amount
commitment, declared in `ringct/rctTypes.h`. -/
structure ctkey where
  dest : key
  mask : key
deriving DecidableEq, Repr

/-- Modelled from the spec: `rct::multisig_kLRki`, the partial multi-signature
key-image share data, declared in `ringct/rctTypes.h`. -/
structure multisig_kLRki where
  k : key
  L : key
  R : key
  ki : key
deriving DecidableEq, Repr

end rct

namespace offshore

/-- Modelled from the spec: `offshore::pricing_record`, an oracle snapshot of
exchange rates tagged with the height it was produced for; declared outside
this header and never inspected by it. -/
structure pricing_record where
  rates : List (String × Nat)
  height : Nat
deriving DecidableEq, Repr

end offshore

namespace cryptonote

/-- Modelled from the spec: `cryptonote::network_type`, declared in
`cryptonote_config.h`. -/
inductive network_type
  | MAINNET | TESTNET | STAGENET | FAKECHAIN | UNDEFINED
deriving DecidableEq, Repr

/-- Modelled from the spec: `cryptonote::account_public_address`, the structured
destination address (spend and view public keys), declared in
`cryptonote_basic.h`. -/
structure account_public_address where
  m_spend_public_key : crypto.public_key
  m_view_public_key : crypto.public_key
deriving DecidableEq, Repr

/-- The value `AUTO_VAL_INIT(addr)` gives: a value-initialised address. -/
def account_public_address.zero : account_public_address := ⟨⟨[]⟩, ⟨[]⟩⟩

/-! ## Archives -/

/-- Names of the members of the two records, as an archive sees them
(`ar.tag(#f)` in `FIELD(f)`, the operand of `a & x.f`). -/
inductive Field
  | outputs | real_output | real_out_tx_key | real_out_additional_tx_keys
  | real_output_in_tx_index | amount | rct | mask | multisig_kLRki | height | pr
  | first_generation_input | asset_type
  | original | dest_amount | slippage | dest_asset_type | addr | is_subaddress
  | is_integrated | is_collateral | is_collateral_change
deriving DecidableEq, Repr

/-- The C++ type of a stored value. -/
inductive Kind
  | u64 | flag | str | public_key | key | public_keys | outputs | kLRki | address
deriving DecidableEq, Repr

/-- Modelled from the spec: the contents of an archive.  The archive classes
(boost archives, `binary_archive`) are not part of this header and the wire
format is out of scope, so a stored record is the ordered sequence of the
typed values that were written. -/
inductive Val
  | u64 (n : Nat)
  | flag (b : Bool)
  | str (s : String)
  | public_key (k : crypto.public_key)
  | key (k : rct.key)
  | public_keys (ks : List crypto.public_key)
  | outputs (os : List (Nat × rct.ctkey))
  | kLRki (m : rct.multisig_kLRki)
  | address (a : account_public_address)
deriving DecidableEq, Repr

/-- Modelled from the spec: an archive, saving or loading.  A saving archive
appends to `data`; a loading archive consumes `data` from the front.  `trace`
records, in order, the member and type of every value that went through. -/
structure Archive where
  saving : Bool
  data : List Val
  trace : List (Field × Kind)
deriving DecidableEq, Repr

/-- Modelled from the spec: the types the archives know how to store, each with the
value it is stored as and the way back. -/
class Storable (α : Type) where
  kind : Kind
  put : α → Val
  get : Val → Option α
  get_put : ∀ x, get (put x) = some x

instance : Storable Nat where
  kind := Kind.u64
  put := Val.u64
  get := fun v => match v with | Val.u64 n => some n | _ => none
  get_put := fun _ => rfl

instance : Storable Bool where
  kind := Kind.flag
  put := Val.flag
  get := fun v => match v with | Val.flag b => some b | _ => none
  get_put := fun _ => rfl

instance : Storable String where
  kind := Kind.str
  put := Val.str
  get := fun v => match v with | Val.str s => some s | _ => none
  get_put := fun _ => rfl

instance : Storable crypto.public_key where
  kind := Kind.public_key
  put := Val.public_key
  get := fun v => match v with | Val.public_key k => some k | _ => none
  get_put := fun _ => rfl

instance : Storable rct.key where
  kind := Kind.key
  put := Val.key
  get := fun v => match v with | Val.key k => some k | _ => none
  get_put := fun _ => rfl

instance : Storable (List crypto.public_key) where
  kind := Kind.public_keys
  put := Val.public_keys
  get := fun v => match v with | Val.public_keys k => some k | _ => none
  get_put := fun _ => rfl

instance : Storable (List (Nat × rct.ctkey)) where
  kind := Kind.outputs
  put := Val.outputs
  get := fun v => match v with | Val.outputs k => some k | _ => none
  get_put := fun _ => rfl

instance : Storable rct.multisig_kLRki where
  kind := Kind.kLRki
  put := Val.kLRki
  get := fun v => match v with | Val.kLRki k => some k | _ => none
  get_put := fun _ => rfl

instance : Storable account_public_address where
  kind := Kind.address
  put := Val.address
  get := fun v => match v with | Val.address k => some k | _ => none
  get_put := fun _ => rfl

/-- Modelled from the spec: the step `a & x.f` of a boost serializer and
`do_serialize(ar, f)` of `FIELD(f)`, both defined outside this header.  A saving
archive appends the member and leaves it as it is; a loading archive takes the
next stored value, which must have the member's type, and that value becomes the
member.  `none` when the archive cannot deliver. -/
def Archive.amp {α : Type} [Storable α] (a : Archive) (f : Field) (x : α) :
    Option (Archive × α) :=
  if a.saving then
    some ({ a with data := a.data ++ [Storable.put x],
                   trace := a.trace ++ [(f, Storable.kind α)] }, x)
  else
    match a.data with
    | [] => none
    | v :: rest =>
      match (Storable.get v : Option α) with
      | some y => some ({ a with data := rest, trace := a.trace ++ [(f, Storable.kind α)] }, y)
      | none => none

/-- A fresh saving archive. -/
def Archive.writer : Archive := { saving := true, data := [], trace := [] }

/-- A fresh loading archive over stored data. -/
def Archive.reader (data : List Val) : Archive := { saving := false, data := data, trace := [] }

/-! ## `tx_source_entry` -/

/-- The typedef `tx_source_entry::output_entry` (line 68). -/
abbrev output_entry : Type := Nat × rct.ctkey

/-- The type `rct::key`, under a name the member `rct` of the record does not hide. -/
abbrev rct_key : Type := rct.key

/-- The type `rct::multisig_kLRki`, under a name the member `rct` does not hide. -/
abbrev rct_multisig_kLRki : Type := rct.multisig_kLRki

/-- The record `tx_source_entry` (lines 66-82). -/
structure tx_source_entry where
  outputs : List output_entry
  real_output : Nat
  real_out_tx_key : crypto.public_key
  real_out_additional_tx_keys : List crypto.public_key
  real_output_in_tx_index : Nat
  amount : Nat
  rct : Bool
  mask : rct_key
  multisig_kLRki : rct_multisig_kLRki
  height : Nat
  pr : offshore.pricing_record
  first_generation_input : Bool
  asset_type : String
deriving DecidableEq, Repr

/-- The member `push_output` (line 84).  `pk2rct` and `zeroCommit` are functions of
`ringct/rctOps.h` and are parameters here. -/
def tx_source_entry.push_output (pk2rct : crypto.public_key → rct.key)
    (zeroCommit : Nat → rct.key) (x : tx_source_entry)
    (idx : Nat) (k : crypto.public_key) (amount : Nat) : tx_source_entry :=
  { x with outputs := x.outputs ++ [(idx, { dest := pk2rct k, mask := zeroCommit amount })] }

/-- The ten `FIELD(...)` lines of the binary serializer (lines 87-96): each one
returns `false` from the serializer when the member cannot be processed. -/
def tx_source_entry.serialize_fields (ar : Archive) (x : tx_source_entry) :
    Option (Archive × tx_source_entry) := do
  let (ar, v) ← ar.amp Field.outputs x.outputs
  let x := { x with outputs := v }
  let (ar, v) ← ar.amp Field.real_output x.real_output
  let x := { x with real_output := v }
  let (ar, v) ← ar.amp Field.real_out_tx_key x.real_out_tx_key
  let x := { x with real_out_tx_key := v }
  let (ar, v) ← ar.amp Field.real_out_additional_tx_keys x.real_out_additional_tx_keys
  let x := { x with real_out_additional_tx_keys := v }
  let (ar, v) ← ar.amp Field.real_output_in_tx_index x.real_output_in_tx_index
  let x := { x with real_output_in_tx_index := v }
  let (ar, v) ← ar.amp Field.amount x.amount
  let x := { x with amount := v }
  let (ar, v) ← ar.amp Field.rct x.rct
  let x := { x with rct := v }
  let (ar, v) ← ar.amp Field.mask x.mask
  let x := { x with mask := v }
  let (ar, v) ← ar.amp Field.multisig_kLRki x.multisig_kLRki
  let x := { x with multisig_kLRki := v }
  let (ar, v) ← ar.amp Field.asset_type x.asset_type
  let x := { x with asset_type := v }
  pure (ar, x)

/-- The binary serializer of `tx_source_entry` (`BEGIN_SERIALIZE_OBJECT` ...
`END_SERIALIZE`, lines 86-100): the ten fields, then the check of the real-output
index (lines 98-99), then `END_SERIALIZE`, which returns the state of the
archive, good at that point since the last field left it so. -/
def tx_source_entry.do_serialize_object (ar : Archive) (x : tx_source_entry) :
    Option (Archive × tx_source_entry) := do
  let (ar, x) ← tx_source_entry.serialize_fields ar x
  if x.real_output ≥ x.outputs.length then
    none
  else
    pure (ar, x)

/-- The class version `BOOST_CLASS_VERSION(cryptonote::tx_source_entry, 5)` (line 260). -/
def tx_source_entry.CLASS_VERSION : Nat := 5

/-- The overload `boost::serialization::serialize(Archive&, tx_source_entry&, ver)`
(lines 267-281). -/
def tx_source_entry.serialize (a : Archive) (x : tx_source_entry) (ver : Nat) :
    Option (Archive × tx_source_entry) := do
  let (a, v) ← a.amp Field.outputs x.outputs
  let x := { x with outputs := v }
  let (a, v) ← a.amp Field.real_output x.real_output
  let x := { x with real_output := v }
  let (a, v) ← a.amp Field.real_out_tx_key x.real_out_tx_key
  let x := { x with real_out_tx_key := v }
  let (a, v) ← a.amp Field.real_output_in_tx_index x.real_output_in_tx_index
  let x := { x with real_output_in_tx_index := v }
  let (a, v) ← a.amp Field.amount x.amount
  let x := { x with amount := v }
  let (a, v) ← a.amp Field.rct x.rct
  let x := { x with rct := v }
  let (a, v) ← a.amp Field.mask x.mask
  let x := { x with mask := v }
  if ver < 1 then
    pure (a, x)
  else do
    let (a, v) ← a.amp Field.multisig_kLRki x.multisig_kLRki
    let x := { x with multisig_kLRki := v }
    let (a, v) ← a.amp Field.real_out_additional_tx_keys x.real_out_additional_tx_keys
    let x := { x with real_out_additional_tx_keys := v }
    pure (a, x)

/-! ## `tx_destination_entry` -/

/-- The record `tx_destination_entry` (lines 103-114). -/
structure tx_destination_entry where
  original : String
  amount : Nat
  dest_amount : Nat
  slippage : Nat
  dest_asset_type : String
  addr : account_public_address
  is_subaddress : Bool
  is_integrated : Bool
  is_collateral : Bool
  is_collateral_change : Bool
deriving DecidableEq, Repr

/-- The default constructor (line 116).  `original` is not in the initializer list
and is a default-constructed `std::string`, the empty string. -/
def tx_destination_entry.ctor_default : tx_destination_entry :=
  { original := "", amount := 0, dest_amount := 0, slippage := 0,
    dest_asset_type := "XHV", addr := account_public_address.zero,
    is_subaddress := false, is_integrated := false, is_collateral := false,
    is_collateral_change := false }

/-- The five-argument constructor (line 117). -/
def tx_destination_entry.ctor_collateral (a : Nat) (ad : account_public_address)
    (is_subaddress is_collateral is_collateral_change : Bool) : tx_destination_entry :=
  { original := "", amount := a, dest_amount := a, slippage := 0,
    dest_asset_type := "XHV", addr := ad,
    is_subaddress := is_subaddress, is_integrated := false, is_collateral := is_collateral,
    is_collateral_change := is_collateral_change }

/-- The three-argument constructor (line 118).  Its initializer list has no entry
for `dest_amount`, a `uint64_t`: the member is left uninitialised and holds
whatever the storage held, the parameter `garbage`. -/
def tx_destination_entry.ctor_amount (garbage : Nat) (a : Nat) (ad : account_public_address)
    (is_subaddress : Bool) : tx_destination_entry :=
  { original := "", amount := a, dest_amount := garbage, slippage := 0,
    dest_asset_type := "XHV", addr := ad,
    is_subaddress := is_subaddress, is_integrated := false, is_collateral := false,
    is_collateral_change := false }

/-- The four-argument constructor taking the address string (line 119).  Its
initializer list has no entry for `dest_amount` either; see `ctor_amount`. -/
def tx_destination_entry.ctor_original (garbage : Nat) (o : String) (a : Nat)
    (ad : account_public_address) (is_subaddress : Bool) : tx_destination_entry :=
  { original := o, amount := a, dest_amount := garbage, slippage := 0,
    dest_asset_type := "XHV", addr := ad,
    is_subaddress := is_subaddress, is_integrated := false, is_collateral := false,
    is_collateral_change := false }

/-- The member `address` (lines 121-134).  The two renderers
`get_account_integrated_address_as_str` and `get_account_address_as_str` are
declared in `cryptonote_basic_impl.h` and are parameters here. -/
def tx_destination_entry.address
    (get_account_integrated_address_as_str :
      network_type → account_public_address → crypto.hash8 → String)
    (get_account_address_as_str : network_type → Bool → account_public_address → String)
    (x : tx_destination_entry) (nettype : network_type) (payment_id : crypto.hash) : String :=
  if !x.original.isEmpty then
    x.original
  else if x.is_integrated then
    get_account_integrated_address_as_str nettype x.addr payment_id.as_hash8
  else
    get_account_address_as_str nettype x.is_subaddress x.addr

/-- The binary serializer of `tx_destination_entry` (lines 136-147); a
`VARINT_FIELD` differs from a `FIELD` only in the encoding of the integer. -/
def tx_destination_entry.do_serialize_object (ar : Archive) (x : tx_destination_entry) :
    Option (Archive × tx_destination_entry) := do
  let (ar, v) ← ar.amp Field.original x.original
  let x := { x with original := v }
  let (ar, v) ← ar.amp Field.amount x.amount
  let x := { x with amount := v }
  let (ar, v) ← ar.amp Field.dest_amount x.dest_amount
  let x := { x with dest_amount := v }
  let (ar, v) ← ar.amp Field.slippage x.slippage
  let x := { x with slippage := v }
  let (ar, v) ← ar.amp Field.dest_asset_type x.dest_asset_type
  let x := { x with dest_asset_type := v }
  let (ar, v) ← ar.amp Field.addr x.addr
  let x := { x with addr := v }
  let (ar, v) ← ar.amp Field.is_subaddress x.is_subaddress
  let x := { x with is_subaddress := v }
  let (ar, v) ← ar.amp Field.is_integrated x.is_integrated
  let x := { x with is_integrated := v }
  let (ar, v) ← ar.amp Field.is_collateral x.is_collateral
  let x := { x with is_collateral := v }
  let (ar, v) ← ar.amp Field.is_collateral_change x.is_collateral_change
  let x := { x with is_collateral_change := v }
  pure (ar, x)

/-- The class version `BOOST_CLASS_VERSION(cryptonote::tx_destination_entry, 5)`
(line 261). -/
def tx_destination_entry.CLASS_VERSION : Nat := 5

/-- The overload `boost::serialization::serialize(Archive&, tx_destination_entry&, ver)`
(lines 283-303). -/
def tx_destination_entry.serialize (a : Archive) (x : tx_destination_entry) (ver : Nat) :
    Option (Archive × tx_destination_entry) := do
  let (a, v) ← a.amp Field.amount x.amount
  let x := { x with amount := v }
  let (a, v) ← a.amp Field.addr x.addr
  let x := { x with addr := v }
  if ver < 1 then
    pure (a, x)
  else do
    let (a, v) ← a.amp Field.is_subaddress x.is_subaddress
    let x := { x with is_subaddress := v }
    if ver < 2 then
      let x := { x with is_integrated := false }
      pure (a, x)
    else do
      let (a, v) ← a.amp Field.original x.original
      let x := { x with original := v }
      let (a, v) ← a.amp Field.is_integrated x.is_integrated
      let x := { x with is_integrated := v }
      if ver < 3 then
        pure (a, x)
      else do
        let (a, v) ← a.amp Field.dest_asset_type x.dest_asset_type
        let x := { x with dest_asset_type := v }
        let (a, v) ← a.amp Field.dest_amount x.dest_amount
        let x := { x with dest_amount := v }
        let (a, v) ← a.amp Field.is_collateral x.is_collateral
        let x := { x with is_collateral := v }
        pure (a, x)

/-! ## Stored records -/

/-- A record in a boost archive: boost stores the class version of an object next
to its contents and hands it back to `serialize` when the object is loaded. -/
structure Record where
  version : Nat
  data : List Val
deriving DecidableEq, Repr

/-- Saving a source entry with the boost serializer, by a program whose class
version is `ver`. -/
def tx_source_entry.boost_save (ver : Nat) (x : tx_source_entry) : Option Record :=
  (tx_source_entry.serialize Archive.writer x ver).map fun r => ⟨ver, r.1.data⟩

/-- Loading a stored source entry into the object `target`. -/
def tx_source_entry.boost_load (r : Record) (target : tx_source_entry) :
    Option tx_source_entry :=
  (tx_source_entry.serialize (Archive.reader r.data) target r.version).map fun p => p.2

/-- Writing a source entry in the binary format. -/
def tx_source_entry.binary_save (x : tx_source_entry) : Option (List Val) :=
  (tx_source_entry.do_serialize_object Archive.writer x).map fun r => r.1.data

/-- Reading a source entry in the binary format into the object `target`. -/
def tx_source_entry.binary_load (data : List Val) (target : tx_source_entry) :
    Option tx_source_entry :=
  (tx_source_entry.do_serialize_object (Archive.reader data) target).map fun p => p.2

/-- Saving a destination entry with the boost serializer, by a program whose class
version is `ver`. -/
def tx_destination_entry.boost_save (ver : Nat) (x : tx_destination_entry) : Option Record :=
  (tx_destination_entry.serialize Archive.writer x ver).map fun r => ⟨ver, r.1.data⟩

/-- Loading a stored destination entry into the object `target`. -/
def tx_destination_entry.boost_load (r : Record) (target : tx_destination_entry) :
    Option tx_destination_entry :=
  (tx_destination_entry.serialize (Archive.reader r.data) target r.version).map fun p => p.2

/-- Writing a destination entry in the binary format. -/
def tx_destination_entry.binary_save (x : tx_destination_entry) : Option (List Val) :=
  (tx_destination_entry.do_serialize_object Archive.writer x).map fun r => r.1.data

/-- Reading a destination entry in the binary format into the object `target`. -/
def tx_destination_entry.binary_load (data : List Val) (target : tx_destination_entry) :
    Option tx_destination_entry :=
  (tx_destination_entry.do_serialize_object (Archive.reader data) target).map fun p => p.2

/-! ## Concrete values used by the witnesses -/

/-- A value-initialised source entry (every member zero or empty). -/
def tx_source_entry.zero : tx_source_entry :=
  { outputs := [], real_output := 0, real_out_tx_key := ⟨[]⟩,
    real_out_additional_tx_keys := [], real_output_in_tx_index := 0, amount := 0,
    rct := false, mask := ⟨[]⟩, multisig_kLRki := ⟨⟨[]⟩, ⟨[]⟩, ⟨[]⟩, ⟨[]⟩⟩,
    height := 0, pr := ⟨[], 0⟩, first_generation_input := false, asset_type := "" }

/-- A source entry with a ring of two outputs, the second one real, created at
height 7 in asset `XUSD`. -/
def tx_source_entry.sample : tx_source_entry :=
  { outputs := [(10, ⟨⟨[1]⟩, ⟨[2]⟩⟩), (11, ⟨⟨[3]⟩, ⟨[4]⟩⟩)], real_output := 1,
    real_out_tx_key := ⟨[5]⟩, real_out_additional_tx_keys := [⟨[6]⟩],
    real_output_in_tx_index := 2, amount := 1000, rct := true, mask := ⟨[7]⟩,
    multisig_kLRki := ⟨⟨[8]⟩, ⟨[9]⟩, ⟨[10]⟩, ⟨[11]⟩⟩,
    height := 7, pr := ⟨[("XUSD", 3)], 7⟩, first_generation_input := true,
    asset_type := "XUSD" }

/-- A destination entry of a conversion: 1000 in the source asset, 990 in `XUSD`,
10 withheld as slippage, marked as collateral change. -/
def tx_destination_entry.sample : tx_destination_entry :=
  { original := "", amount := 1000, dest_amount := 990, slippage := 10,
    dest_asset_type := "XUSD", addr := ⟨⟨[1]⟩, ⟨[2]⟩⟩,
    is_subaddress := true, is_integrated := false, is_collateral := false,
    is_collateral_change := true }

/-- A stand-in for `get_account_integrated_address_as_str`. -/
def sample_integrated_str (_ : network_type) (_ : account_public_address)
    (p : crypto.hash8) : String :=
  if p.data.length = 8 then "integrated" else "integrated-short"

/-- A stand-in for `get_account_address_as_str`. -/
def sample_address_str (_ : network_type) (is_subaddress : Bool)
    (_ : account_public_address) : String :=
  if is_subaddress then "subaddress" else "standard"

/-! ## What the serializers store -/

/-- The values the binary serializer writes for a source entry. -/
def tx_source_entry.binary_values (s : tx_source_entry) : List Val :=
  [Val.outputs s.outputs, Val.u64 s.real_output, Val.public_key s.real_out_tx_key,
   Val.public_keys s.real_out_additional_tx_keys, Val.u64 s.real_output_in_tx_index,
   Val.u64 s.amount, Val.flag s.rct, Val.key s.mask, Val.kLRki s.multisig_kLRki,
   Val.str s.asset_type]

/-- The values the boost serializer writes for a source entry at version `ver`. -/
def tx_source_entry.boost_values (s : tx_source_entry) (ver : Nat) : List Val :=
  [Val.outputs s.outputs, Val.u64 s.real_output, Val.public_key s.real_out_tx_key,
   Val.u64 s.real_output_in_tx_index, Val.u64 s.amount, Val.flag s.rct, Val.key s.mask]
  ++ (if ver < 1 then []
      else [Val.kLRki s.multisig_kLRki, Val.public_keys s.real_out_additional_tx_keys])

/-- The members, with their types, that the boost serializer of a source entry
goes through at version `ver`, in order. -/
def tx_source_entry.field_sequence (ver : Nat) : List (Field × Kind) :=
  [(Field.outputs, Kind.outputs), (Field.real_output, Kind.u64),
   (Field.real_out_tx_key, Kind.public_key), (Field.real_output_in_tx_index, Kind.u64),
   (Field.amount, Kind.u64), (Field.rct, Kind.flag), (Field.mask, Kind.key)]
  ++ (if ver < 1 then []
      else [(Field.multisig_kLRki, Kind.kLRki),
            (Field.real_out_additional_tx_keys, Kind.public_keys)])

/-- The values the boost serializer writes for a destination entry at version `ver`. -/
def tx_destination_entry.boost_values (d : tx_destination_entry) (ver : Nat) : List Val :=
  [Val.u64 d.amount, Val.address d.addr]
  ++ (if ver < 1 then []
      else [Val.flag d.is_subaddress]
        ++ (if ver < 2 then []
            else [Val.str d.original, Val.flag d.is_integrated]
              ++ (if ver < 3 then []
                  else [Val.str d.dest_asset_type, Val.u64 d.dest_amount,
                        Val.flag d.is_collateral])))

/-- The members, with their types, that the boost serializer of a destination entry
goes through at version `ver`, in order. -/
def tx_destination_entry.field_sequence (ver : Nat) : List (Field × Kind) :=
  [(Field.amount, Kind.u64), (Field.addr, Kind.address)]
  ++ (if ver < 1 then []
      else [(Field.is_subaddress, Kind.flag)]
        ++ (if ver < 2 then []
            else [(Field.original, Kind.str), (Field.is_integrated, Kind.flag)]
              ++ (if ver < 3 then []
                  else [(Field.dest_asset_type, Kind.str), (Field.dest_amount, Kind.u64),
                        (Field.is_collateral, Kind.flag)])))

/-! ## Constructors -/

/-- The default and the five-argument constructor establish
`dest_amount = amount = a` and `slippage = 0`; the other two establish
`amount = a` and `slippage = 0` and leave `dest_amount` as the storage had it. -/
theorem ctor_amounts (g a : Nat) (o : String) (ad : account_public_address)
    (sub col chg : Bool) :
    (tx_destination_entry.ctor_default.amount = 0
      ∧ tx_destination_entry.ctor_default.dest_amount = 0
      ∧ tx_destination_entry.ctor_default.slippage = 0)
    ∧ ((tx_destination_entry.ctor_collateral a ad sub col chg).amount = a
      ∧ (tx_destination_entry.ctor_collateral a ad sub col chg).dest_amount = a
      ∧ (tx_destination_entry.ctor_collateral a ad sub col chg).slippage = 0)
    ∧ ((tx_destination_entry.ctor_amount g a ad sub).amount = a
      ∧ (tx_destination_entry.ctor_amount g a ad sub).dest_amount = g
      ∧ (tx_destination_entry.ctor_amount g a ad sub).slippage = 0)
    ∧ ((tx_destination_entry.ctor_original g o a ad sub).amount = a
      ∧ (tx_destination_entry.ctor_original g o a ad sub).dest_amount = g
      ∧ (tx_destination_entry.ctor_original g o a ad sub).slippage = 0) :=
  ⟨⟨rfl, rfl, rfl⟩, ⟨rfl, rfl, rfl⟩, ⟨rfl, rfl, rfl⟩, ⟨rfl, rfl, rfl⟩⟩

/-- C2, at the failing input: the three-argument constructor called with amount
1000 on storage that held 0 yields an entry with `amount = 1000` and
`dest_amount = 0`, and so does the four-argument constructor taking the address
string; the five-argument constructor with the same amount yields
`dest_amount = 1000`. -/
theorem ctor_amount_leaves_dest_amount :
    (tx_destination_entry.ctor_amount 0 1000 account_public_address.zero false).amount = 1000
    ∧ (tx_destination_entry.ctor_amount 0 1000 account_public_address.zero false).dest_amount = 0
    ∧ (tx_destination_entry.ctor_original 0 "addr" 1000 account_public_address.zero
        false).dest_amount = 0
    ∧ (tx_destination_entry.ctor_collateral 1000 account_public_address.zero false false
        false).dest_amount = 1000 := by
  decide

/-! ## `address` -/

/-- C6: when `original` is not empty, `address` returns `original`, for every
network type and payment id, and whatever `addr`, `is_subaddress` and
`is_integrated` are replaced by. -/
theorem address_returns_original
    (gi : network_type → account_public_address → crypto.hash8 → String)
    (ga : network_type → Bool → account_public_address → String)
    (x : tx_destination_entry) (nettype : network_type) (payment_id : crypto.hash)
    (h : x.original.isEmpty = false) :
    x.address gi ga nettype payment_id = x.original
    ∧ ∀ (ad : account_public_address) (sub int : Bool),
        ({ x with addr := ad, is_subaddress := sub, is_integrated := int }).address gi ga
          nettype payment_id = x.original := by
  constructor
  · simp [tx_destination_entry.address, h]
  · intro ad sub int
    simp [tx_destination_entry.address, h]

/-- Witness for C6: an entry with `original = "hvx1"` and both flags set. -/
theorem address_returns_original_witness :
    ({ tx_destination_entry.sample with original := "hvx1", is_integrated := true }).address
      sample_integrated_str sample_address_str network_type.MAINNET ⟨[1, 2, 3]⟩ = "hvx1" :=
  (address_returns_original sample_integrated_str sample_address_str
    { tx_destination_entry.sample with original := "hvx1", is_integrated := true }
    network_type.MAINNET ⟨[1, 2, 3]⟩ (by decide)).1

/-- C9: when `original` is empty, `address` is the integrated rendering of `addr`
with the first 8 bytes of the payment id if `is_integrated` is set (also when
`is_subaddress` is set as well: there is no failure path), and the standard
rendering of `addr` with the `is_subaddress` flag otherwise. -/
theorem address_of_structured_fields
    (gi : network_type → account_public_address → crypto.hash8 → String)
    (ga : network_type → Bool → account_public_address → String)
    (x : tx_destination_entry) (nettype : network_type) (payment_id : crypto.hash)
    (h : x.original.isEmpty = true) :
    (x.is_integrated = true →
        x.address gi ga nettype payment_id = gi nettype x.addr ⟨payment_id.data.take 8⟩)
    ∧ (x.is_integrated = true → x.is_subaddress = true →
        x.address gi ga nettype payment_id = gi nettype x.addr ⟨payment_id.data.take 8⟩)
    ∧ (x.is_integrated = false →
        x.address gi ga nettype payment_id = ga nettype x.is_subaddress x.addr) := by
  refine ⟨?_, ?_, ?_⟩
  · intro hi
    simp [tx_destination_entry.address, h, hi, crypto.hash.as_hash8]
  · intro hi _
    simp [tx_destination_entry.address, h, hi, crypto.hash.as_hash8]
  · intro hi
    simp [tx_destination_entry.address, h, hi]

/-- Witness for C9: an entry with empty `original` and both `is_integrated` and
`is_subaddress` set is rendered as an integrated address. -/
theorem address_of_structured_fields_witness :
    ({ tx_destination_entry.sample with is_integrated := true }).address
      sample_integrated_str sample_address_str network_type.TESTNET
      ⟨[1, 2, 3, 4, 5, 6, 7, 8, 9, 10]⟩ = "integrated" :=
  ((address_of_structured_fields sample_integrated_str sample_address_str
    { tx_destination_entry.sample with is_integrated := true }
    network_type.TESTNET ⟨[1, 2, 3, 4, 5, 6, 7, 8, 9, 10]⟩ (by decide)).2.1 rfl rfl).trans
    (by decide)

/-! ## `push_output` -/

/-- C10: `push_output` appends the one entry `(idx, ctkey{pk2rct(k), zeroCommit(amount)})`
at the end of `outputs`, changes no other member and no earlier output, and
keeps `real_output < outputs.size()` when it held before. -/
theorem push_output_appends (pk2rct : crypto.public_key → rct.key)
    (zeroCommit : Nat → rct.key) (x : tx_source_entry)
    (idx : Nat) (k : crypto.public_key) (amount : Nat) :
    (x.push_output pk2rct zeroCommit idx k amount).outputs
        = x.outputs ++ [(idx, { dest := pk2rct k, mask := zeroCommit amount })]
    ∧ (x.push_output pk2rct zeroCommit idx k amount).outputs.length = x.outputs.length + 1
    ∧ (∀ i, i < x.outputs.length →
        (x.push_output pk2rct zeroCommit idx k amount).outputs[i]? = x.outputs[i]?)
    ∧ x.push_output pk2rct zeroCommit idx k amount
        = { x with outputs := (x.push_output pk2rct zeroCommit idx k amount).outputs }
    ∧ (x.push_output pk2rct zeroCommit idx k amount).real_output = x.real_output
    ∧ (x.real_output < x.outputs.length →
        (x.push_output pk2rct zeroCommit idx k amount).real_output
          < (x.push_output pk2rct zeroCommit idx k amount).outputs.length) := by
  refine ⟨rfl, ?_, ?_, rfl, rfl, ?_⟩
  · simp [tx_source_entry.push_output]
  · intro i hi
    simp [tx_source_entry.push_output, List.getElem?_append_left hi]
  · intro h
    simp only [tx_source_entry.push_output, List.length_append, List.length_singleton]
    omega

/-- Witness for C10: pushing a third output on the sample entry, whose real output
is the second of two. -/
theorem push_output_appends_witness :
    (tx_source_entry.sample.push_output (fun k => ⟨k.data⟩) (fun n => ⟨[n]⟩) 12 ⟨[9]⟩
        5).real_output
      < (tx_source_entry.sample.push_output (fun k => ⟨k.data⟩) (fun n => ⟨[n]⟩) 12 ⟨[9]⟩
        5).outputs.length :=
  (push_output_appends (fun k => ⟨k.data⟩) (fun n => ⟨[n]⟩) tx_source_entry.sample 12 ⟨[9]⟩
    5).2.2.2.2.2 (by decide)

/-! ## Archive steps -/

/-- A step that succeeds records the member and its type at the end of the trace
and does not change the direction of the archive. -/
theorem amp_trace {α : Type} [Storable α] (a a' : Archive) (f : Field) (x y : α)
    (h : a.amp f x = some (a', y)) :
    a'.trace = a.trace ++ [(f, Storable.kind α)] ∧ a'.saving = a.saving := by
  unfold Archive.amp at h
  split at h
  · cases h; exact ⟨rfl, rfl⟩
  · split at h
    · cases h
    · split at h
      · cases h; exact ⟨rfl, rfl⟩
      · cases h

/-- On a saving archive a step always succeeds and leaves the member as it is. -/
theorem amp_saving {α : Type} [Storable α] (a : Archive) (f : Field) (x : α)
    (h : a.saving = true) :
    a.amp f x = some ({ a with data := a.data ++ [Storable.put x],
                               trace := a.trace ++ [(f, Storable.kind α)] }, x) := by
  simp [Archive.amp, h]

/-! ## The binary serializer of `tx_source_entry` -/

/-- On a saving archive the ten fields always serialize and leave the entry as it is. -/
theorem serialize_fields_saving (ar : Archive) (x : tx_source_entry) (h : ar.saving = true) :
    ∃ ar', tx_source_entry.serialize_fields ar x = some (ar', x)
      ∧ ar'.data = ar.data ++ x.binary_values := by
  obtain ⟨sv, data, tr⟩ := ar
  cases h
  refine ⟨_, rfl, ?_⟩
  simp [tx_source_entry.binary_values, Storable.put]

/-- Reading the values of `s` fills the ten members of the target with those of `s`. -/
theorem serialize_fields_reader (s t : tx_source_entry) :
    (tx_source_entry.serialize_fields (Archive.reader s.binary_values) t).map (fun p => p.2)
      = some { t with outputs := s.outputs, real_output := s.real_output,
                      real_out_tx_key := s.real_out_tx_key,
                      real_out_additional_tx_keys := s.real_out_additional_tx_keys,
                      real_output_in_tx_index := s.real_output_in_tx_index,
                      amount := s.amount, rct := s.rct, mask := s.mask,
                      multisig_kLRki := s.multisig_kLRki, asset_type := s.asset_type } :=
  rfl

/-- C1: the binary serializer of `tx_source_entry` returns `false` whenever
`real_output >= outputs.size()` (for the entry being written, and for the entry
as read), and when the ten fields serialize it returns `true` exactly when
`real_output < outputs.size()`. -/
theorem do_serialize_object_real_output (ar : Archive) (x : tx_source_entry) :
    (ar.saving = true → x.real_output ≥ x.outputs.length →
        tx_source_entry.do_serialize_object ar x = none)
    ∧ (∀ ar' x', tx_source_entry.do_serialize_object ar x = some (ar', x') →
        x'.real_output < x'.outputs.length)
    ∧ (∀ ar' x', tx_source_entry.serialize_fields ar x = some (ar', x') →
        (x'.real_output ≥ x'.outputs.length →
          tx_source_entry.do_serialize_object ar x = none)
        ∧ (tx_source_entry.do_serialize_object ar x = some (ar', x')
            ↔ x'.real_output < x'.outputs.length)) := by
  refine ⟨?_, ?_, ?_⟩
  · intro hs hx
    obtain ⟨ar', h', _⟩ := serialize_fields_saving ar x hs
    simp [tx_source_entry.do_serialize_object, h', bind, hx]
  · intro ar' x' h
    simp only [tx_source_entry.do_serialize_object, bind, Option.bind_eq_some,
      Prod.exists] at h
    obtain ⟨a1, x1, _, h⟩ := h
    split at h
    · cases h
    · cases h
      omega
  · intro ar' x' h
    constructor
    · intro hx
      simp [tx_source_entry.do_serialize_object, h, bind, hx]
    · constructor
      · intro hd
        simp only [tx_source_entry.do_serialize_object, h, bind, Option.some_bind] at hd
        split at hd
        · cases hd
        · omega
      · intro hx
        simp [tx_source_entry.do_serialize_object, h, bind, Nat.not_le.mpr hx]

/-- Witness for C1: on the sample entry (real output 1 of 2) the ten fields are
written and the serializer returns `true`. -/
theorem do_serialize_object_real_output_witness :
    tx_source_entry.sample.real_output < tx_source_entry.sample.outputs.length
    ∧ (tx_source_entry.do_serialize_object Archive.writer tx_source_entry.sample).isSome = true
    ∧ tx_source_entry.do_serialize_object Archive.writer
        { tx_source_entry.sample with real_output := 2 } = none :=
  ⟨(do_serialize_object_real_output Archive.writer tx_source_entry.sample).2.1 _ _ rfl,
   by decide,
   (do_serialize_object_real_output Archive.writer
      { tx_source_entry.sample with real_output := 2 }).1 rfl (by decide)⟩

/-! ## The boost serializer of `tx_source_entry` -/

/-- Saving a source entry always succeeds, leaves the entry as it is, and stores
`boost_values`. -/
theorem source_boost_save (s : tx_source_entry) (ver : Nat) :
    tx_source_entry.serialize Archive.writer s ver
      = some (⟨true, s.boost_values ver, tx_source_entry.field_sequence ver⟩, s) := by
  rcases Nat.lt_or_ge ver 1 with h | h
  · have : ver = 0 := by omega
    subst this
    rfl
  · have hv : ¬ ver < 1 := by omega
    simp only [tx_source_entry.serialize, tx_source_entry.boost_values,
      tx_source_entry.field_sequence, if_neg hv]
    rfl

/-- Loading what was saved at version `ver` overwrites the members stored at that
version with those of `s` and leaves every other member of the target. -/
theorem source_boost_load (s t : tx_source_entry) (ver : Nat) :
    tx_source_entry.boost_load ⟨ver, s.boost_values ver⟩ t
      = some (if ver < 1 then
                { t with outputs := s.outputs, real_output := s.real_output,
                         real_out_tx_key := s.real_out_tx_key,
                         real_output_in_tx_index := s.real_output_in_tx_index,
                         amount := s.amount, rct := s.rct, mask := s.mask }
              else
                { t with outputs := s.outputs, real_output := s.real_output,
                         real_out_tx_key := s.real_out_tx_key,
                         real_output_in_tx_index := s.real_output_in_tx_index,
                         amount := s.amount, rct := s.rct, mask := s.mask,
                         multisig_kLRki := s.multisig_kLRki,
                         real_out_additional_tx_keys := s.real_out_additional_tx_keys }) := by
  rcases Nat.lt_or_ge ver 1 with h | h
  · have : ver = 0 := by omega
    subst this
    rfl
  · have hv : ¬ ver < 1 := by omega
    simp only [tx_source_entry.boost_load, tx_source_entry.serialize,
      tx_source_entry.boost_values, if_neg hv]
    rfl

/-- Every successful run of the boost serializer of a source entry, saving or
loading, goes through exactly `field_sequence ver` and leaves `height`, `pr`,
`first_generation_input` and `asset_type` alone. -/
theorem source_serialize_run (a a' : Archive) (x x' : tx_source_entry) (ver : Nat)
    (h : tx_source_entry.serialize a x ver = some (a', x')) :
    a'.trace = a.trace ++ tx_source_entry.field_sequence ver
    ∧ x'.height = x.height ∧ x'.pr = x.pr
    ∧ x'.first_generation_input = x.first_generation_input
    ∧ x'.asset_type = x.asset_type := by
  simp only [tx_source_entry.serialize, bind, Option.bind_eq_some, Prod.exists] at h
  obtain ⟨a1, v1, h1, a2, v2, h2, a3, v3, h3, a4, v4, h4, a5, v5, h5, a6, v6, h6,
    a7, v7, h7, h⟩ := h
  have t1 := (amp_trace _ _ _ _ _ h1).1
  have t2 := (amp_trace _ _ _ _ _ h2).1
  have t3 := (amp_trace _ _ _ _ _ h3).1
  have t4 := (amp_trace _ _ _ _ _ h4).1
  have t5 := (amp_trace _ _ _ _ _ h5).1
  have t6 := (amp_trace _ _ _ _ _ h6).1
  have t7 := (amp_trace _ _ _ _ _ h7).1
  split at h
  · rename_i hv
    cases h
    refine ⟨?_, rfl, rfl, rfl, rfl⟩
    rw [t7, t6, t5, t4, t3, t2, t1]
    simp only [tx_source_entry.field_sequence, if_pos hv, List.append_assoc]
    rfl
  · rename_i hv
    simp only [Option.bind_eq_some, Prod.exists] at h
    obtain ⟨a8, v8, h8, a9, v9, h9, h⟩ := h
    have t8 := (amp_trace _ _ _ _ _ h8).1
    have t9 := (amp_trace _ _ _ _ _ h9).1
    cases h
    refine ⟨?_, rfl, rfl, rfl, rfl⟩
    rw [t9, t8, t7, t6, t5, t4, t3, t2, t1]
    simp only [tx_source_entry.field_sequence, if_neg hv, List.append_assoc]
    rfl

/-- C4, counterexample: the sample entry (height 7, a pricing record,
`first_generation_input` set, asset type `XUSD`), saved at class version 5 and
loaded into a value-initialised entry, comes back with height 0, an empty pricing
record and `first_generation_input` unset: the loaded entry is not the saved one. -/
theorem source_boost_loses_height :
    (tx_source_entry.boost_save tx_source_entry.CLASS_VERSION tx_source_entry.sample).bind
        (fun r => tx_source_entry.boost_load r tx_source_entry.zero)
      = some { tx_source_entry.sample with
                height := 0, pr := ⟨[], 0⟩, first_generation_input := false,
                asset_type := "" }
    ∧ (tx_source_entry.boost_save tx_source_entry.CLASS_VERSION tx_source_entry.sample).bind
        (fun r => tx_source_entry.boost_load r tx_source_entry.zero)
      ≠ some tx_source_entry.sample
    ∧ tx_source_entry.sample.height = 7 := by
  decide

/-- C4, amended: saving any source entry `s` at class version 5 and loading the
result into any entry `t` succeeds and yields an entry equal to `s` in the nine
members `outputs`, `real_output`, `real_out_tx_key`, `real_out_additional_tx_keys`,
`real_output_in_tx_index`, `amount`, `rct`, `mask` and `multisig_kLRki`; `height`,
`pr` and `first_generation_input` are not part of the stored record and are those
of `t`. -/
theorem source_boost_round_trip (s t : tx_source_entry) :
    ∃ r x, tx_source_entry.boost_save tx_source_entry.CLASS_VERSION s = some r
      ∧ r.version = tx_source_entry.CLASS_VERSION
      ∧ tx_source_entry.boost_load r t = some x
      ∧ x.outputs = s.outputs ∧ x.real_output = s.real_output
      ∧ x.real_out_tx_key = s.real_out_tx_key
      ∧ x.real_out_additional_tx_keys = s.real_out_additional_tx_keys
      ∧ x.real_output_in_tx_index = s.real_output_in_tx_index
      ∧ x.amount = s.amount ∧ x.rct = s.rct ∧ x.mask = s.mask
      ∧ x.multisig_kLRki = s.multisig_kLRki
      ∧ x.height = t.height ∧ x.pr = t.pr
      ∧ x.first_generation_input = t.first_generation_input :=
  ⟨_, _, rfl, rfl, rfl, rfl, rfl, rfl, rfl, rfl, rfl, rfl, rfl, rfl, rfl, rfl, rfl⟩

/-- C5: for a source entry `s` with `real_output < outputs.size()`, writing `s` and
reading it back into any entry `t` succeeds, in the binary format and in the boost
format at every version (0 to 5 in particular), and the entry read has the
`outputs` and the `real_output` of `s`, so its `real_output` is still below the
size of its `outputs`. -/
theorem real_output_survives_round_trip (s t : tx_source_entry)
    (h : s.real_output < s.outputs.length) :
    (∃ data x, tx_source_entry.binary_save s = some data
        ∧ tx_source_entry.binary_load data t = some x
        ∧ x.outputs = s.outputs ∧ x.real_output = s.real_output
        ∧ x.real_output < x.outputs.length)
    ∧ (∀ ver, ∃ r x, tx_source_entry.boost_save ver s = some r
        ∧ tx_source_entry.boost_load r t = some x
        ∧ x.outputs = s.outputs ∧ x.real_output = s.real_output
        ∧ x.real_output < x.outputs.length) := by
  constructor
  · obtain ⟨ar', h1, h2⟩ := serialize_fields_saving Archive.writer s rfl
    have hr := serialize_fields_reader s t
    rw [Option.map_eq_some'] at hr
    obtain ⟨⟨ar2, x2⟩, hr, hx⟩ := hr
    simp only at hx
    refine ⟨s.binary_values, x2, ?_, ?_, ?_, ?_, ?_⟩
    · simp only [tx_source_entry.binary_save, tx_source_entry.do_serialize_object, h1, bind,
        Option.some_bind]
      rw [if_neg (Nat.not_le.mpr h)]
      simpa [Archive.writer] using h2
    · have hx2 : ¬ x2.real_output ≥ x2.outputs.length := by
        rw [hx]
        exact Nat.not_le.mpr h
      simp only [tx_source_entry.binary_load, tx_source_entry.do_serialize_object, hr, bind,
        Option.some_bind]
      rw [if_neg hx2]
      rfl
    · rw [hx]
    · rw [hx]
    · rw [hx]
      exact h
  · intro ver
    refine ⟨⟨ver, s.boost_values ver⟩, _, ?_, source_boost_load s t ver, ?_, ?_, ?_⟩
    · simp [tx_source_entry.boost_save, source_boost_save]
    · split <;> rfl
    · split <;> rfl
    · split <;> exact h

/-- Witness for C5: the sample entry, read back into a value-initialised entry. -/
theorem real_output_survives_round_trip_witness :
    tx_source_entry.sample.real_output < tx_source_entry.sample.outputs.length
    ∧ (∃ data x, tx_source_entry.binary_save tx_source_entry.sample = some data
        ∧ tx_source_entry.binary_load data tx_source_entry.zero = some x
        ∧ x.outputs = tx_source_entry.sample.outputs
        ∧ x.real_output = tx_source_entry.sample.real_output
        ∧ x.real_output < x.outputs.length) :=
  ⟨by decide,
   (real_output_survives_round_trip tx_source_entry.sample tx_source_entry.zero
      (by decide)).1⟩

/-! ## The serializers of `tx_destination_entry` -/

/-- Saving a destination entry always succeeds and stores `boost_values`. -/
theorem dest_boost_save (d : tx_destination_entry) (ver : Nat) :
    tx_destination_entry.boost_save ver d = some ⟨ver, d.boost_values ver⟩ := by
  by_cases h1 : ver < 1
  · simp only [tx_destination_entry.boost_save, tx_destination_entry.serialize,
      tx_destination_entry.boost_values, if_pos h1]
    rfl
  · by_cases h2 : ver < 2
    · simp only [tx_destination_entry.boost_save, tx_destination_entry.serialize,
        tx_destination_entry.boost_values, if_neg h1, if_pos h2]
      rfl
    · by_cases h3 : ver < 3
      · simp only [tx_destination_entry.boost_save, tx_destination_entry.serialize,
          tx_destination_entry.boost_values, if_neg h1, if_neg h2, if_pos h3]
        rfl
      · simp only [tx_destination_entry.boost_save, tx_destination_entry.serialize,
          tx_destination_entry.boost_values, if_neg h1, if_neg h2, if_neg h3]
        rfl

/-- Loading what was saved at version `ver` succeeds, and the members stored at
that version are those of the saved entry. -/
theorem dest_boost_load (d t : tx_destination_entry) (ver : Nat) :
    ∃ x, tx_destination_entry.boost_load ⟨ver, d.boost_values ver⟩ t = some x
      ∧ x.amount = d.amount ∧ x.addr = d.addr
      ∧ (1 ≤ ver → x.is_subaddress = d.is_subaddress)
      ∧ (2 ≤ ver → x.original = d.original ∧ x.is_integrated = d.is_integrated)
      ∧ (3 ≤ ver → x.dest_asset_type = d.dest_asset_type ∧ x.dest_amount = d.dest_amount
          ∧ x.is_collateral = d.is_collateral) := by
  by_cases h1 : ver < 1
  · simp only [tx_destination_entry.boost_load, tx_destination_entry.serialize,
      tx_destination_entry.boost_values, if_pos h1]
    exact ⟨_, rfl, rfl, rfl, by omega, by omega, by omega⟩
  · by_cases h2 : ver < 2
    · simp only [tx_destination_entry.boost_load, tx_destination_entry.serialize,
        tx_destination_entry.boost_values, if_neg h1, if_pos h2]
      exact ⟨_, rfl, rfl, rfl, fun _ => rfl, by omega, by omega⟩
    · by_cases h3 : ver < 3
      · simp only [tx_destination_entry.boost_load, tx_destination_entry.serialize,
          tx_destination_entry.boost_values, if_neg h1, if_neg h2, if_pos h3]
        exact ⟨_, rfl, rfl, rfl, fun _ => rfl, fun _ => ⟨rfl, rfl⟩, by omega⟩
      · simp only [tx_destination_entry.boost_load, tx_destination_entry.serialize,
          tx_destination_entry.boost_values, if_neg h1, if_neg h2, if_neg h3]
        exact ⟨_, rfl, rfl, rfl, fun _ => rfl, fun _ => ⟨rfl, rfl⟩, fun _ => ⟨rfl, rfl, rfl⟩⟩

/-- Every successful run of the boost serializer of a destination entry, saving or
loading, goes through exactly `field_sequence ver`; it never touches `slippage`
or `is_collateral_change`, and of the members beyond the version it only sets
`is_integrated`, to `false`, at version 1. -/
theorem dest_serialize_run (a a' : Archive) (x x' : tx_destination_entry) (ver : Nat)
    (h : tx_destination_entry.serialize a x ver = some (a', x')) :
    a'.trace = a.trace ++ tx_destination_entry.field_sequence ver
    ∧ x'.slippage = x.slippage ∧ x'.is_collateral_change = x.is_collateral_change
    ∧ (ver < 1 → x'.is_subaddress = x.is_subaddress ∧ x'.is_integrated = x.is_integrated)
    ∧ (ver = 1 → x'.is_integrated = false)
    ∧ (ver < 2 → x'.original = x.original)
    ∧ (ver < 3 → x'.dest_asset_type = x.dest_asset_type ∧ x'.dest_amount = x.dest_amount
        ∧ x'.is_collateral = x.is_collateral) := by
  simp only [tx_destination_entry.serialize, bind, Option.bind_eq_some, Prod.exists] at h
  obtain ⟨a1, v1, h1, a2, v2, h2, h⟩ := h
  have t1 := (amp_trace _ _ _ _ _ h1).1
  have t2 := (amp_trace _ _ _ _ _ h2).1
  split at h
  · rename_i hv1
    cases h
    refine ⟨?_, rfl, rfl, fun _ => ⟨rfl, rfl⟩, by omega, fun _ => rfl,
      fun _ => ⟨rfl, rfl, rfl⟩⟩
    rw [t2, t1]
    simp only [tx_destination_entry.field_sequence, if_pos hv1, List.append_assoc]
    rfl
  · rename_i hv1
    simp only [Option.bind_eq_some, Prod.exists] at h
    obtain ⟨a3, v3, h3, h⟩ := h
    have t3 := (amp_trace _ _ _ _ _ h3).1
    split at h
    · rename_i hv2
      cases h
      refine ⟨?_, rfl, rfl, by omega, fun _ => rfl, fun _ => rfl,
        fun _ => ⟨rfl, rfl, rfl⟩⟩
      rw [t3, t2, t1]
      simp only [tx_destination_entry.field_sequence, if_neg hv1, if_pos hv2,
        List.append_assoc]
      rfl
    · rename_i hv2
      simp only [Option.bind_eq_some, Prod.exists] at h
      obtain ⟨a4, v4, h4, a5, v5, h5, h⟩ := h
      have t4 := (amp_trace _ _ _ _ _ h4).1
      have t5 := (amp_trace _ _ _ _ _ h5).1
      split at h
      · rename_i hv3
        cases h
        refine ⟨?_, rfl, rfl, by omega, by omega, by omega, fun _ => ⟨rfl, rfl, rfl⟩⟩
        rw [t5, t4, t3, t2, t1]
        simp only [tx_destination_entry.field_sequence, if_neg hv1, if_neg hv2, if_pos hv3,
          List.append_assoc]
        rfl
      · rename_i hv3
        simp only [Option.bind_eq_some, Prod.exists] at h
        obtain ⟨a6, v6, h6, a7, v7, h7, a8, v8, h8, h⟩ := h
        have t6 := (amp_trace _ _ _ _ _ h6).1
        have t7 := (amp_trace _ _ _ _ _ h7).1
        have t8 := (amp_trace _ _ _ _ _ h8).1
        cases h
        refine ⟨?_, rfl, rfl, by omega, by omega, by omega, by omega⟩
        rw [t8, t7, t6, t5, t4, t3, t2, t1]
        simp only [tx_destination_entry.field_sequence, if_neg hv1, if_neg hv2, if_neg hv3,
          List.append_assoc]
        rfl

/-- The binary serializer of a destination entry carries all ten members: what is
written and read back, into any entry, is the entry written. -/
theorem dest_binary_round_trip (d t : tx_destination_entry) :
    (tx_destination_entry.binary_save d).bind
        (fun data => tx_destination_entry.binary_load data t) = some d :=
  rfl

/-- The boost serializer at class version 5 carries eight members: what is saved and
loaded into a default-constructed entry is the entry saved with `slippage` 0 and
`is_collateral_change` unset. -/
theorem dest_boost_round_trip (d : tx_destination_entry) :
    (tx_destination_entry.boost_save tx_destination_entry.CLASS_VERSION d).bind
        (fun r => tx_destination_entry.boost_load r tx_destination_entry.ctor_default)
      = some { d with slippage := 0, is_collateral_change := false } :=
  rfl

/-- C3, at the failing input: the sample entry has `slippage = 10` and
`is_collateral_change` set; saved with the boost serializer at class version 5 and
loaded into a default-constructed entry it comes back with `slippage = 0` and
`is_collateral_change` unset, the other eight members intact, while the binary
serializer of the same record returns it whole. -/
theorem dest_boost_drops_slippage :
    tx_destination_entry.sample.slippage = 10
    ∧ tx_destination_entry.sample.is_collateral_change = true
    ∧ (tx_destination_entry.boost_save tx_destination_entry.CLASS_VERSION
          tx_destination_entry.sample).bind
        (fun r => tx_destination_entry.boost_load r tx_destination_entry.ctor_default)
      = some { tx_destination_entry.sample with slippage := 0, is_collateral_change := false }
    ∧ (tx_destination_entry.boost_save tx_destination_entry.CLASS_VERSION
          tx_destination_entry.sample).bind
        (fun r => tx_destination_entry.boost_load r tx_destination_entry.ctor_default)
      ≠ some tx_destination_entry.sample
    ∧ (tx_destination_entry.binary_save tx_destination_entry.sample).bind
        (fun data => tx_destination_entry.binary_load data tx_destination_entry.ctor_default)
      = some tx_destination_entry.sample := by
  decide

/-- C8, counterexample: the version-0 record of the sample entry holds `amount` and
`addr` only.  Loaded into an entry whose `is_subaddress` is set, whose `original`
is `"old"` and whose `dest_amount` is 9, it leaves those three members as they
were, not at the default-constructed `false`, `""` and 0; loaded into a
default-constructed entry the same record gives another result. -/
theorem dest_boost_load_keeps_target_members :
    tx_destination_entry.boost_save 0 tx_destination_entry.sample
      = some ⟨0, [Val.u64 1000, Val.address ⟨⟨[1]⟩, ⟨[2]⟩⟩]⟩
    ∧ tx_destination_entry.boost_load ⟨0, [Val.u64 1000, Val.address ⟨⟨[1]⟩, ⟨[2]⟩⟩]⟩
        { tx_destination_entry.ctor_default with
            is_subaddress := true, original := "old", dest_amount := 9 }
      = some { tx_destination_entry.ctor_default with
                amount := 1000, addr := ⟨⟨[1]⟩, ⟨[2]⟩⟩,
                is_subaddress := true, original := "old", dest_amount := 9 }
    ∧ tx_destination_entry.boost_load ⟨0, [Val.u64 1000, Val.address ⟨⟨[1]⟩, ⟨[2]⟩⟩]⟩
        tx_destination_entry.ctor_default
      = some { tx_destination_entry.ctor_default with
                amount := 1000, addr := ⟨⟨[1]⟩, ⟨[2]⟩⟩ } := by
  decide

/-- C8, amended: a record saved at any version loads into any target `t`; a load
that succeeds leaves `slippage` and `is_collateral_change` and every member that
the record's version does not store as `t` had them (`is_subaddress` below
version 1, `original` below version 2, `dest_asset_type`, `dest_amount` and
`is_collateral` below version 3), and sets `is_integrated` to `false` at version 1;
so when `t` is default-constructed each member absent at the version has its
default-constructed value. -/
theorem dest_boost_load_absent_members (t : tx_destination_entry) :
    (∀ (d : tx_destination_entry) (ver : Nat), ∃ r x,
        tx_destination_entry.boost_save ver d = some r ∧ r.version = ver
        ∧ tx_destination_entry.boost_load r t = some x)
    ∧ (∀ (r : Record) (x : tx_destination_entry),
        tx_destination_entry.boost_load r t = some x →
          (x.slippage = t.slippage ∧ x.is_collateral_change = t.is_collateral_change
            ∧ (r.version < 1 → x.is_subaddress = t.is_subaddress)
            ∧ (r.version = 1 → x.is_integrated = false)
            ∧ (r.version < 2 → x.original = t.original)
            ∧ (r.version < 3 → x.dest_asset_type = t.dest_asset_type
                ∧ x.dest_amount = t.dest_amount ∧ x.is_collateral = t.is_collateral))
          ∧ (t = tx_destination_entry.ctor_default →
              x.slippage = 0 ∧ x.is_collateral_change = false
              ∧ (r.version < 1 → x.is_subaddress = false)
              ∧ (r.version < 2 → x.is_integrated = false ∧ x.original = "")
              ∧ (r.version < 3 → x.dest_asset_type = "XHV" ∧ x.dest_amount = 0
                  ∧ x.is_collateral = false))) := by
  constructor
  · intro d ver
    obtain ⟨x, hx, _⟩ := dest_boost_load d t ver
    exact ⟨_, x, dest_boost_save d ver, rfl, hx⟩
  · intro r x h
    simp only [tx_destination_entry.boost_load, Option.map_eq_some', Prod.exists] at h
    obtain ⟨a', x1, h, hx⟩ := h
    subst hx
    obtain ⟨_, hs, hc, h0, h1, h2, h3⟩ := dest_serialize_run _ _ _ _ _ h
    refine ⟨⟨hs, hc, fun hv => (h0 hv).1, h1, h2, h3⟩, ?_⟩
    intro ht
    subst ht
    refine ⟨hs, hc, fun hv => (h0 hv).1, ?_, ?_⟩
    · intro hv
      refine ⟨?_, h2 hv⟩
      by_cases hz : r.version < 1
      · exact (h0 hz).2
      · exact h1 (by omega)
    · intro hv
      exact h3 hv

/-- Witness for C8: the version-1 record of the sample entry, loaded into a
default-constructed entry, gives an entry with `original` empty, `is_integrated`
unset, `dest_amount` 0 and `slippage` 0. -/
theorem dest_boost_load_absent_members_witness :
    tx_destination_entry.boost_load
        ⟨1, [Val.u64 1000, Val.address ⟨⟨[1]⟩, ⟨[2]⟩⟩, Val.flag true]⟩
        tx_destination_entry.ctor_default
      = some { tx_destination_entry.ctor_default with
                amount := 1000, addr := ⟨⟨[1]⟩, ⟨[2]⟩⟩, is_subaddress := true }
    ∧ (({ tx_destination_entry.ctor_default with
          amount := 1000, addr := ⟨⟨[1]⟩, ⟨[2]⟩⟩,
          is_subaddress := true } : tx_destination_entry).slippage = 0
      ∧ ({ tx_destination_entry.ctor_default with
          amount := 1000, addr := ⟨⟨[1]⟩, ⟨[2]⟩⟩,
          is_subaddress := true } : tx_destination_entry).is_collateral_change = false) :=
  ⟨by decide,
   (((dest_boost_load_absent_members tx_destination_entry.ctor_default).2
      ⟨1, [Val.u64 1000, Val.address ⟨⟨[1]⟩, ⟨[2]⟩⟩, Val.flag true]⟩
      { tx_destination_entry.ctor_default with
          amount := 1000, addr := ⟨⟨[1]⟩, ⟨[2]⟩⟩, is_subaddress := true }
      (by decide)).2 rfl).1,
   (((dest_boost_load_absent_members tx_destination_entry.ctor_default).2
      ⟨1, [Val.u64 1000, Val.address ⟨⟨[1]⟩, ⟨[2]⟩⟩, Val.flag true]⟩
      { tx_destination_entry.ctor_default with
          amount := 1000, addr := ⟨⟨[1]⟩, ⟨[2]⟩⟩, is_subaddress := true }
      (by decide)).2 rfl).2.1⟩

/-! ## Versions only append -/

/-- The sequence of members of a source entry at a version is an initial segment
of the sequence at any later version. -/
theorem source_field_sequence_mono (v w : Nat) (h : v ≤ w) :
    tx_source_entry.field_sequence v <+: tx_source_entry.field_sequence w := by
  simp only [tx_source_entry.field_sequence]
  split_ifs <;> first
    | omega
    | exact List.prefix_refl _
    | exact (List.prefix_append_right_inj _).mpr List.nil_prefix

/-- The sequence of members of a destination entry at a version is an initial
segment of the sequence at any later version. -/
theorem dest_field_sequence_mono (v w : Nat) (h : v ≤ w) :
    tx_destination_entry.field_sequence v <+: tx_destination_entry.field_sequence w := by
  simp only [tx_destination_entry.field_sequence]
  split_ifs <;> first
    | omega
    | exact List.prefix_refl _
    | simp

/-- In an initial segment every position holds what it holds in the whole. -/
theorem getElem?_of_initial_segment {α : Type} (l₁ l₂ : List α) (h : l₁ <+: l₂) (i : Nat)
    (hi : i < l₁.length) : l₁[i]? = l₂[i]? := by
  obtain ⟨t, rfl⟩ := h
  rw [List.getElem?_append_left hi]

/-- C7: for versions `v ≤ w` (0 to 5 in particular), any successful run of the boost
serializer of a source entry at `v` and any at `w`, saving or loading, from fresh
archives: the members gone through at `v`, with their types, are an initial
segment of those gone through at `w`, so every position of the older sequence
holds the same member of the same type in the newer one.  The same for the boost
serializer of a destination entry. -/
theorem boost_versions_only_append (v w : Nat) (hvw : v ≤ w) :
    (∀ (a₁ a₂ : Archive) (x₁ x₂ : tx_source_entry) (r₁ r₂ : Archive × tx_source_entry),
        a₁.trace = [] → a₂.trace = [] →
        tx_source_entry.serialize a₁ x₁ v = some r₁ →
        tx_source_entry.serialize a₂ x₂ w = some r₂ →
          r₁.1.trace <+: r₂.1.trace
          ∧ ∀ i, i < r₁.1.trace.length → r₁.1.trace[i]? = r₂.1.trace[i]?)
    ∧ (∀ (a₁ a₂ : Archive) (x₁ x₂ : tx_destination_entry)
        (r₁ r₂ : Archive × tx_destination_entry),
        a₁.trace = [] → a₂.trace = [] →
        tx_destination_entry.serialize a₁ x₁ v = some r₁ →
        tx_destination_entry.serialize a₂ x₂ w = some r₂ →
          r₁.1.trace <+: r₂.1.trace
          ∧ ∀ i, i < r₁.1.trace.length → r₁.1.trace[i]? = r₂.1.trace[i]?) := by
  constructor
  · intro a₁ a₂ x₁ x₂ r₁ r₂ e₁ e₂ h₁ h₂
    have t₁ := (source_serialize_run a₁ r₁.1 x₁ r₁.2 v h₁).1
    have t₂ := (source_serialize_run a₂ r₂.1 x₂ r₂.2 w h₂).1
    rw [e₁, List.nil_append] at t₁
    rw [e₂, List.nil_append] at t₂
    have hp : r₁.1.trace <+: r₂.1.trace := by
      rw [t₁, t₂]
      exact source_field_sequence_mono v w hvw
    exact ⟨hp, getElem?_of_initial_segment _ _ hp⟩
  · intro a₁ a₂ x₁ x₂ r₁ r₂ e₁ e₂ h₁ h₂
    have t₁ := (dest_serialize_run a₁ r₁.1 x₁ r₁.2 v h₁).1
    have t₂ := (dest_serialize_run a₂ r₂.1 x₂ r₂.2 w h₂).1
    rw [e₁, List.nil_append] at t₁
    rw [e₂, List.nil_append] at t₂
    have hp : r₁.1.trace <+: r₂.1.trace := by
      rw [t₁, t₂]
      exact dest_field_sequence_mono v w hvw
    exact ⟨hp, getElem?_of_initial_segment _ _ hp⟩

/-- Witness for C7: saving the sample destination entry at version 1 goes through
`amount`, `addr`, `is_subaddress`; saving it at version 5 goes through those three
first, then five more. -/
theorem boost_versions_only_append_witness :
    (tx_destination_entry.serialize Archive.writer tx_destination_entry.sample 1).map
        (fun r => r.1.trace)
      = some [(Field.amount, Kind.u64), (Field.addr, Kind.address),
              (Field.is_subaddress, Kind.flag)]
    ∧ [(Field.amount, Kind.u64), (Field.addr, Kind.address), (Field.is_subaddress, Kind.flag)]
      <+: [(Field.amount, Kind.u64), (Field.addr, Kind.address),
           (Field.is_subaddress, Kind.flag), (Field.original, Kind.str),
           (Field.is_integrated, Kind.flag), (Field.dest_asset_type, Kind.str),
           (Field.dest_amount, Kind.u64), (Field.is_collateral, Kind.flag)] :=
  ⟨by decide,
   ((boost_versions_only_append 1 5 (by decide)).2 Archive.writer Archive.writer
      tx_destination_entry.sample tx_destination_entry.sample
      (⟨true, tx_destination_entry.sample.boost_values 1,
          tx_destination_entry.field_sequence 1⟩,
        { tx_destination_entry.sample with is_integrated := false })
      (⟨true, tx_destination_entry.sample.boost_values 5,
          tx_destination_entry.field_sequence 5⟩, tx_destination_entry.sample)
      rfl rfl (by decide) (by decide)).1⟩

end cryptonote
